import Mathlib

/-!
Verification of the Quantitative Risk and Backtesting Engine.

Shallow embedding of `src/backend/app/processing/backtester.py` and
`src/backend/app/processing/risk_management.py`.  Python floats are
modelled as exact rationals, Python lists as Lean lists, dictionary
lookups with defaults as `Option.getD`, and raised exceptions as the
`Except String` monad.  The global numpy random source is modelled as an
explicit stream of standard-normal draws passed to the functions that
consume it.
-/

namespace RiskEngine

/-- One OHLC price bar, as consumed by `Backtester.simulate_trade`. -/
structure Bar where
  high : ℚ
  low : ℚ
  close : ℚ
deriving Repr, DecidableEq

/-- Result record of `Backtester.simulate_trade`. -/
structure TradeResult where
  exit_price : ℚ
  exit_reason : String
  return_pct : ℚ
  max_drawdown : ℚ
  trade_length : ℕ
deriving Repr, DecidableEq

/-- The long-direction bar loop of `simulate_trade` (backtester.py lines
120-139): returns `some (exit_price, reason)` on a break, `none` when the
bars are exhausted, together with the running max_drawdown.  State:
`peak` is the running peak price, `mdd` the running max drawdown. -/
def longWalk (sl tp : ℚ) : List Bar → ℚ → ℚ → Option (ℚ × String) × ℚ
  | [], _, mdd => (none, mdd)
  | b :: rest, peak, mdd =>
    if b.low ≤ sl then (some (sl, "stop_loss"), mdd)
    else if b.high ≥ tp then (some (tp, "take_profit"), mdd)
    else
      let peak2 := max peak b.high
      let dd := (peak2 - b.low) / peak2
      longWalk sl tp rest peak2 (min mdd (-dd))

/-- The short-direction bar loop of `simulate_trade` (backtester.py lines
140-152); the running peak is a running minimum. -/
def shortWalk (sl tp : ℚ) : List Bar → ℚ → ℚ → Option (ℚ × String) × ℚ
  | [], _, mdd => (none, mdd)
  | b :: rest, peak, mdd =>
    if b.high ≥ sl then (some (sl, "stop_loss"), mdd)
    else if b.low ≤ tp then (some (tp, "take_profit"), mdd)
    else
      let peak2 := min peak b.low
      let dd := (b.low - peak2) / peak2
      shortWalk sl tp rest peak2 (min mdd (-dd))

/-- `Backtester.simulate_trade` (backtester.py lines 109-169).  The
direction string is compared to "long" exactly, as in the source; any
other string takes the short branch.  `exit_price` is initialised to the
entry price and only overwritten by a stop-loss or take-profit break. -/
def simulate_trade (bars : List Bar) (direction : String) (entry sl tp : ℚ) :
    TradeResult :=
  let w := if direction = "long" then longWalk sl tp bars entry 0
           else shortWalk sl tp bars entry 0
  let ex := w.1.getD (entry, "time_horizon_end")
  let ret := if direction = "long" then (ex.1 - entry) / entry * 100
             else (entry - ex.1) / entry * 100
  { exit_price := ex.1
    exit_reason := ex.2
    return_pct := ret
    max_drawdown := w.2
    trade_length := bars.length }

end RiskEngine

namespace RiskEngine

lemma longWalk_fst_nil (sl tp : ℚ) (bars : List Bar)
    (h : ∀ x ∈ bars, ¬ x.low ≤ sl ∧ ¬ x.high ≥ tp) :
    ∀ peak mdd, (longWalk sl tp bars peak mdd).1 = none := by
  induction bars with
  | nil => intro peak mdd; rfl
  | cons b rest ih =>
    intro peak mdd
    have hb := h b (List.mem_cons_self b rest)
    have hrest : ∀ x ∈ rest, ¬ x.low ≤ sl ∧ ¬ x.high ≥ tp :=
      fun x hx => h x (List.mem_cons_of_mem b hx)
    simp only [longWalk, if_neg hb.1, if_neg hb.2]
    exact ih hrest _ _

lemma shortWalk_fst_nil (sl tp : ℚ) (bars : List Bar)
    (h : ∀ x ∈ bars, ¬ x.high ≥ sl ∧ ¬ x.low ≤ tp) :
    ∀ peak mdd, (shortWalk sl tp bars peak mdd).1 = none := by
  induction bars with
  | nil => intro peak mdd; rfl
  | cons b rest ih =>
    intro peak mdd
    have hb := h b (List.mem_cons_self b rest)
    have hrest : ∀ x ∈ rest, ¬ x.high ≥ sl ∧ ¬ x.low ≤ tp :=
      fun x hx => h x (List.mem_cons_of_mem b hx)
    simp only [shortWalk, if_neg hb.1, if_neg hb.2]
    exact ih hrest _ _

lemma longWalk_fst_append (sl tp : ℚ) (pre : List Bar) (b : Bar) (rest : List Bar)
    (hpre : ∀ x ∈ pre, ¬ x.low ≤ sl ∧ ¬ x.high ≥ tp) (hlo : b.low ≤ sl) :
    ∀ peak mdd, (longWalk sl tp (pre ++ b :: rest) peak mdd).1 =
      some (sl, "stop_loss") := by
  induction pre with
  | nil =>
    intro peak mdd
    simp only [List.nil_append, longWalk, if_pos hlo]
  | cons a pre2 ih =>
    intro peak mdd
    have ha := hpre a (List.mem_cons_self a pre2)
    have hpre2 : ∀ x ∈ pre2, ¬ x.low ≤ sl ∧ ¬ x.high ≥ tp :=
      fun x hx => hpre x (List.mem_cons_of_mem a hx)
    simp only [List.cons_append, longWalk, if_neg ha.1, if_neg ha.2]
    exact ih hpre2 _ _

/-- C1: in `simulate_trade` for a long trade, whenever the walk reaches a
bar on which both the stop-loss and the take-profit are breachable
(bar.low ≤ stop_loss and bar.high ≥ take_profit), the trade exits at the
stop-loss with exit_reason "stop_loss": the stop-loss check precedes the
take-profit check on every bar, so a simultaneous trigger resolves to the
stop-loss exit. -/
theorem simulate_trade_long_stop_loss_first
    (entry sl tp : ℚ) (pre : List Bar) (b : Bar) (rest : List Bar)
    (hpre : ∀ x ∈ pre, ¬ x.low ≤ sl ∧ ¬ x.high ≥ tp)
    (hlo : b.low ≤ sl) (hhi : b.high ≥ tp) :
    (simulate_trade (pre ++ b :: rest) "long" entry sl tp).exit_price = sl ∧
    (simulate_trade (pre ++ b :: rest) "long" entry sl tp).exit_reason =
      "stop_loss" := by
  have hw := longWalk_fst_append sl tp pre b rest hpre hlo entry 0
  constructor <;> simp [simulate_trade, hw]

/-- Witness for C1 at a concrete input: entry 100, stop 95, target 105,
one quiet bar followed by a bar spanning both levels. -/
theorem simulate_trade_long_stop_loss_first_wit :
    (simulate_trade [⟨101, 99, 100⟩, ⟨110, 90, 100⟩] "long" 100 95 105).exit_price
        = 95 ∧
    (simulate_trade [⟨101, 99, 100⟩, ⟨110, 90, 100⟩] "long" 100 95 105).exit_reason
        = "stop_loss" :=
  simulate_trade_long_stop_loss_first 100 95 105 [⟨101, 99, 100⟩] ⟨110, 90, 100⟩ []
    (by intro x hx; simp at hx; subst hx; constructor <;> norm_num)
    (by norm_num) (by norm_num)

/-- C5: when no stop-loss and no take-profit trigger fires on any bar,
`simulate_trade` returns exit_reason "time_horizon_end" with exit_price
equal to the entry price, hence return_pct = 0, in both the long and the
short branch. -/
theorem simulate_trade_time_horizon_end
    (bars : List Bar) (direction : String) (entry sl tp : ℚ)
    (hlong : direction = "long" → ∀ x ∈ bars, ¬ x.low ≤ sl ∧ ¬ x.high ≥ tp)
    (hshort : direction ≠ "long" → ∀ x ∈ bars, ¬ x.high ≥ sl ∧ ¬ x.low ≤ tp) :
    (simulate_trade bars direction entry sl tp).exit_reason = "time_horizon_end" ∧
    (simulate_trade bars direction entry sl tp).exit_price = entry ∧
    (simulate_trade bars direction entry sl tp).return_pct = 0 := by
  by_cases hd : direction = "long"
  · have hw := longWalk_fst_nil sl tp bars (hlong hd) entry 0
    refine ⟨?_, ?_, ?_⟩ <;> simp [simulate_trade, hd, hw]
  · have hw := shortWalk_fst_nil sl tp bars (hshort hd) entry 0
    refine ⟨?_, ?_, ?_⟩ <;> simp [simulate_trade, hd, hw]

/-- Witness for C5 at a concrete input: a short trade over two quiet bars
exits at the entry price with zero return. -/
theorem simulate_trade_time_horizon_end_wit :
    (simulate_trade [⟨101, 99, 100⟩, ⟨102, 98, 101⟩] "short" 100 110 90).exit_reason
        = "time_horizon_end" ∧
    (simulate_trade [⟨101, 99, 100⟩, ⟨102, 98, 101⟩] "short" 100 110 90).exit_price
        = 100 ∧
    (simulate_trade [⟨101, 99, 100⟩, ⟨102, 98, 101⟩] "short" 100 110 90).return_pct
        = 0 :=
  simulate_trade_time_horizon_end [⟨101, 99, 100⟩, ⟨102, 98, 101⟩] "short" 100 110 90
    (by intro h; simp at h)
    (by intro _ x hx; simp at hx
        rcases hx with h1 | h1 <;> subst h1 <;> constructor <;> norm_num)

end RiskEngine

namespace RiskEngine

/-- Step loop of `_generate_price_path` (risk_management.py lines 285-291):
`prev` is the last price, `n` the remaining steps, `i` the index of the
next standard-normal draw in the stream `draws`.  Each new price is
`prev * (1 + (drift + volatility * draw))`, floored at 0.01. -/
def genFrom (drift vol : ℚ) (draws : ℕ → ℚ) : ℚ → ℕ → ℕ → List ℚ
  | _, 0, _ => []
  | prev, n + 1, i =>
    let p2 := max (prev * (1 + (drift + vol * draws i))) (1 / 100)
    p2 :: genFrom drift vol draws p2 n (i + 1)

/-- `_generate_price_path` (risk_management.py lines 276-292), with the
global numpy normal sampler replaced by the explicit draw stream `draws`.
drift = (drift_bias - 0.5) * 0.1; the list starts at `start` and carries
`time_horizon` further steps. -/
def generate_price_path (start vol : ℚ) (time_horizon : ℕ) (drift_bias : ℚ)
    (draws : ℕ → ℚ) : List ℚ :=
  start :: genFrom ((drift_bias - 1 / 2) * (1 / 10)) vol draws start time_horizon 0

/-- Outcome classification of one simulated path inside
`monte_carlo_simulation` (risk_management.py lines 206-218): stop-loss
first, then take-profit, else hold to the final price. -/
def mc_outcome (entry sl tp : ℚ) (path : List ℚ) : ℚ :=
  if path.any (fun p => decide (p ≤ sl)) then (sl - entry) / entry
  else if path.any (fun p => decide (tp ≤ p)) then (tp - entry) / entry
  else (path.getLastD 0 - entry) / entry

/-- Outcome list of `monte_carlo_simulation` (risk_management.py lines
182-220): daily_volatility = atr / entry, drift bias = confidence / 100,
simulation `i` consumes the draw stream `draws i`. -/
def monte_carlo_outcomes (entry sl tp conf atr : ℚ)
    (num_simulations time_horizon : ℕ) (draws : ℕ → ℕ → ℚ) : List ℚ :=
  (List.range num_simulations).map fun i =>
    mc_outcome entry sl tp
      (generate_price_path entry (atr / entry) time_horizon (conf / 100) (draws i))

/-- `np.percentile` with the default linear interpolation: rank
k = p/100 * (n-1) into the sorted sample, interpolating between the
neighbouring order statistics. -/
def np_percentile (xs : List ℚ) (p : ℚ) : ℚ :=
  let s := xs.mergeSort (fun a b => decide (a ≤ b))
  let k := p / 100 * ((s.length : ℚ) - 1)
  let f := Int.floor k
  let lo := s.getD f.toNat 0
  let hi := s.getD (f + 1).toNat 0
  lo + (k - (f : ℚ)) * (hi - lo)

/-- The output statistics of `monte_carlo_simulation` named by the
determinism requirement: percentiles, VaR-95, CVaR-95, win rate. -/
structure MCStats where
  win_rate : ℚ
  var_95 : ℚ
  cvar_95 : ℚ
  p10 : ℚ
  p25 : ℚ
  p50 : ℚ
  p75 : ℚ
  p90 : ℚ
deriving Repr, DecidableEq

/-- Statistics computed from the outcome list in `monte_carlo_simulation`
(risk_management.py lines 222-262). -/
def mc_stats (outcomes : List ℚ) : MCStats :=
  let n : ℚ := outcomes.length
  let wins : ℚ := (outcomes.filter fun o => decide (0 < o)).length
  let var95 := np_percentile outcomes 5
  let tail := outcomes.filter fun o => decide (o ≤ var95)
  { win_rate := wins / n
    var_95 := var95
    cvar_95 := tail.sum / (tail.length : ℚ)
    p10 := np_percentile outcomes 10
    p25 := np_percentile outcomes 25
    p50 := np_percentile outcomes 50
    p75 := np_percentile outcomes 75
    p90 := np_percentile outcomes 90 }

lemma genFrom_congr (drift vol : ℚ) (d1 d2 : ℕ → ℚ) :
    ∀ (n i : ℕ) (prev : ℚ), (∀ j, i ≤ j → j < i + n → d1 j = d2 j) →
      genFrom drift vol d1 prev n i = genFrom drift vol d2 prev n i := by
  intro n
  induction n with
  | zero => intro i prev _; rfl
  | succ m ih =>
    intro i prev h
    have hi : d1 i = d2 i := h i le_rfl (by omega)
    simp only [genFrom, hi]
    exact congrArg _ (ih (i + 1) _ (fun j h1 h2 => h j (by omega) (by omega)))

/-- C6: `monte_carlo_simulation` is deterministic in the random source:
whenever two draw streams agree on every draw the simulation consumes
(simulation index below num_simulations, step index below time_horizon),
the outcome lists coincide and therefore every reported statistic
(win rate, VaR-95, CVaR-95 and all percentiles) is identical.  A fixed
seed fixes the draw stream, so two seeded runs give identical output. -/
theorem monte_carlo_deterministic (entry sl tp conf atr : ℚ)
    (num_simulations time_horizon : ℕ) (d1 d2 : ℕ → ℕ → ℚ)
    (h : ∀ i < num_simulations, ∀ j < time_horizon, d1 i j = d2 i j) :
    monte_carlo_outcomes entry sl tp conf atr num_simulations time_horizon d1 =
      monte_carlo_outcomes entry sl tp conf atr num_simulations time_horizon d2 ∧
    mc_stats
        (monte_carlo_outcomes entry sl tp conf atr num_simulations time_horizon d1) =
      mc_stats
        (monte_carlo_outcomes entry sl tp conf atr num_simulations time_horizon d2) := by
  have ho : monte_carlo_outcomes entry sl tp conf atr num_simulations time_horizon d1 =
      monte_carlo_outcomes entry sl tp conf atr num_simulations time_horizon d2 := by
    unfold monte_carlo_outcomes
    apply List.map_congr_left
    intro i hi
    have hi2 : i < num_simulations := List.mem_range.mp hi
    have hpath : generate_price_path entry (atr / entry) time_horizon (conf / 100)
        (d1 i) = generate_price_path entry (atr / entry) time_horizon (conf / 100)
        (d2 i) := by
      unfold generate_price_path
      exact congrArg _
        (genFrom_congr _ _ _ _ time_horizon 0 entry
          (fun j _ h2 => h i hi2 j (by omega)))
    rw [hpath]
  exact ⟨ho, congrArg mc_stats ho⟩

/-- Witness for C6: two draw streams that agree on the consumed draws
(but differ elsewhere) give identical outcomes and statistics. -/
theorem monte_carlo_deterministic_wit :
    monte_carlo_outcomes 100 95 110 60 2 2 3 (fun _ _ => 0) =
      monte_carlo_outcomes 100 95 110 60 2 2 3 (fun i j => if i < 2 ∧ j < 3 then 0 else 7) ∧
    mc_stats (monte_carlo_outcomes 100 95 110 60 2 2 3 (fun _ _ => 0)) =
      mc_stats (monte_carlo_outcomes 100 95 110 60 2 2 3
        (fun i j => if i < 2 ∧ j < 3 then 0 else 7)) :=
  monte_carlo_deterministic 100 95 110 60 2 2 3 _ _
    (by intro i hi j hj; simp [hi, hj])

end RiskEngine

namespace RiskEngine

/-- C2: the Monte Carlo outcome classification is stop-loss-first,
regardless of which trigger occurs first in time: a path containing any
price ≤ stop_loss is classified as the stop-loss outcome
(stop_loss - entry)/entry even when it also contains a price ≥
take_profit; only a path with no price ≤ stop_loss and some price ≥
take_profit gets the take-profit outcome; every remaining path gets
(final_price - entry)/entry. -/
theorem mc_outcome_stop_loss_priority (entry sl tp : ℚ) (path : List ℚ)
    (hne : path ≠ []) :
    ((∃ p ∈ path, p ≤ sl) →
      mc_outcome entry sl tp path = (sl - entry) / entry) ∧
    ((∀ p ∈ path, ¬ p ≤ sl) → (∃ p ∈ path, tp ≤ p) →
      mc_outcome entry sl tp path = (tp - entry) / entry) ∧
    ((∀ p ∈ path, ¬ p ≤ sl) → (∀ p ∈ path, ¬ tp ≤ p) →
      mc_outcome entry sl tp path = (path.getLastD 0 - entry) / entry) := by
  refine ⟨?_, ?_, ?_⟩
  · intro hex
    have h1 : path.any (fun p => decide (p ≤ sl)) = true := by
      simp only [List.any_eq_true, decide_eq_true_eq]
      exact hex
    simp [mc_outcome, h1]
  · intro hno hex
    have h1 : path.any (fun p => decide (p ≤ sl)) = false := by
      simp only [List.any_eq_false, decide_eq_true_eq]
      exact hno
    have h2 : path.any (fun p => decide (tp ≤ p)) = true := by
      simp only [List.any_eq_true, decide_eq_true_eq]
      exact hex
    simp [mc_outcome, h1, h2]
  · intro hno1 hno2
    have h1 : path.any (fun p => decide (p ≤ sl)) = false := by
      simp only [List.any_eq_false, decide_eq_true_eq]
      exact hno1
    have h2 : path.any (fun p => decide (tp ≤ p)) = false := by
      simp only [List.any_eq_false, decide_eq_true_eq]
      exact hno2
    simp [mc_outcome, h1, h2]

/-- Witness for C2: a path that reaches the take-profit level before
dipping to the stop-loss is still classified as a stop-loss outcome of
(95 - 100)/100 = -5 percent. -/
theorem mc_outcome_stop_loss_priority_wit :
    ((∃ p ∈ ([100, 112, 94, 105] : List ℚ), p ≤ 95) ∧
      mc_outcome 100 95 110 [100, 112, 94, 105] = (95 - 100) / 100) :=
  ⟨⟨94, by norm_num⟩,
    (mc_outcome_stop_loss_priority 100 95 110 [100, 112, 94, 105]
      (by simp)).1 ⟨94, by norm_num⟩⟩

lemma genFrom_mem_ge (drift vol : ℚ) (draws : ℕ → ℚ) :
    ∀ (n i : ℕ) (prev : ℚ), ∀ p ∈ genFrom drift vol draws prev n i,
      (1 : ℚ) / 100 ≤ p := by
  intro n
  induction n with
  | zero => intro i prev p hp; simp [genFrom] at hp
  | succ m ih =>
    intro i prev p hp
    simp only [genFrom, List.mem_cons] at hp
    rcases hp with h | h
    · rw [h]; exact le_max_right _ _
    · exact ih (i + 1) _ p h

/-- C8: for every positive start price and arbitrary volatility, drift
bias, horizon and draw stream, the generated price path starts exactly at
the start price, every later element is at least the 0.01 floor, and
hence every element of the path is strictly positive. -/
theorem generate_price_path_pos (start vol drift_bias : ℚ) (time_horizon : ℕ)
    (draws : ℕ → ℚ) (hs : 0 < start) :
    (generate_price_path start vol time_horizon drift_bias draws).head? =
        some start ∧
    (∀ p ∈ (generate_price_path start vol time_horizon drift_bias draws).tail,
        (1 : ℚ) / 100 ≤ p) ∧
    (∀ p ∈ generate_price_path start vol time_horizon drift_bias draws, 0 < p) := by
  refine ⟨rfl, ?_, ?_⟩
  · intro p hp
    exact genFrom_mem_ge _ _ _ _ _ _ p hp
  · intro p hp
    simp only [generate_price_path, List.mem_cons] at hp
    rcases hp with h | h
    · rw [h]; exact hs
    · exact lt_of_lt_of_le (by norm_num) (genFrom_mem_ge _ _ _ _ _ _ p h)

/-- Witness for C8 at a concrete input: start 50, volatility 3, a large
negative draw; the floor keeps every generated price positive. -/
theorem generate_price_path_pos_wit :
    (0 : ℚ) < 50 ∧
    (∀ p ∈ generate_price_path 50 3 2 (1 / 2) (fun _ => -10), (0 : ℚ) < p) :=
  ⟨by norm_num,
    (generate_price_path_pos 50 3 (1 / 2) 2 (fun _ => -10) (by norm_num)).2.2⟩

end RiskEngine

namespace RiskEngine

/-- Python int() on a float: truncation toward zero. -/
def truncQ (q : ℚ) : ℤ := if 0 ≤ q then ⌊q⌋ else -⌊-q⌋

/-- Python round-half-to-even to an integer. -/
def roundHalfEven (x : ℚ) : ℤ :=
  let f := ⌊x⌋
  let r := x - (f : ℚ)
  if r < 1 / 2 then f
  else if 1 / 2 < r then f + 1
  else if f % 2 = 0 then f else f + 1

/-- Python round(x, n). -/
def pyRound (x : ℚ) (n : ℕ) : ℚ :=
  (roundHalfEven (x * 10 ^ n) : ℚ) / 10 ^ n

/-- Python true division: raises ZeroDivisionError on a zero divisor. -/
def pyDiv (a b : ℚ) : Except String ℚ :=
  if b = 0 then Except.error "ZeroDivisionError" else Except.ok (a / b)

/-- `_calculate_kelly_criterion` (risk_management.py lines 88-113): the
inner try computes b = (2*rps)/rps, the Kelly fraction and the clamped
size; any ZeroDivisionError falls to the default pv*0.01/entry, which
itself raises when entry_price is zero. -/
def calculate_kelly_criterion (portfolio_value confidence_score risk_per_share
    entry_price : ℚ) : Except String ℚ :=
  let attempt : Except String ℚ := do
    let b ← pyDiv (risk_per_share * 2) risk_per_share
    let p := confidence_score / 100
    let q := 1 - p
    let kf ← pyDiv (b * p - q) b
    let ks ← pyDiv (kf * (1 / 4) * portfolio_value) entry_price
    pure (max 0 ks)
  match attempt with
  | Except.ok v => Except.ok v
  | Except.error _ => pyDiv (portfolio_value * (1 / 100)) entry_price

/-- `_calculate_fixed_fractional` (risk_management.py lines 115-124); the
dict lookup defaults to the medium multiplier 0.02. -/
def calculate_fixed_fractional (portfolio_value : ℚ) (risk_level : String) : ℚ :=
  let frac : ℚ :=
    if risk_level = "low" then 3 / 100
    else if risk_level = "medium" then 1 / 50
    else if risk_level = "high" then 1 / 100
    else 1 / 50
  portfolio_value * frac / 100

/-- `_calculate_volatility_adjusted_size` (risk_management.py lines
126-153).  The truthiness test `if atr and entry_price` is false when
either is zero; the fall-through division by a zero entry price raises
and is caught by the local handler, which returns pv*0.02/100. -/
def calculate_volatility_adjusted_size (portfolio_value atr entry_price : ℚ) : ℚ :=
  if atr ≠ 0 ∧ entry_price ≠ 0 then
    let volatility_pct := atr / entry_price * 100
    let adj : ℚ :=
      if volatility_pct > 5 then 1 / 2
      else if volatility_pct > 3 then 3 / 4
      else 1
    portfolio_value * (1 / 50) / entry_price * adj
  else if entry_price ≠ 0 then portfolio_value * (1 / 50) / entry_price
  else portfolio_value * (1 / 50) / 100

/-- `_calculate_portfolio_heat_adjustment` (risk_management.py lines
155-174); absent portfolio data gives 1.0, otherwise the 6 percent
ceiling thresholds apply to total_risk_exposure. -/
def calculate_portfolio_heat_adjustment (portfolio_value : ℚ)
    (portfolio_data : Option ℚ) : ℚ :=
  match portfolio_data with
  | none => 1
  | some current_risk =>
    let max_heat := portfolio_value * (3 / 50)
    if current_risk ≥ max_heat then 1 / 10
    else if current_risk ≥ max_heat * (4 / 5) then 1 / 2
    else 1

/-- Signal dictionary as consumed by the position sizer: absent keys are
`none` and the source defaults apply at each lookup. -/
structure SignalData where
  confidence_score : Option ℚ := none
  risk_level : Option String := none
  entry_price : Option ℚ := none
  stop_loss : Option ℚ := none
  take_profit : Option ℚ := none
  atr : Option ℚ := none
deriving Repr, DecidableEq

/-- Result dictionary of `calculate_position_size`; `error = true` marks
the conservative default returned by the except handler (whose Python
dict omits the component-size keys; they are zero here). -/
structure PSResult where
  shares : ℤ
  position_value : ℚ
  portfolio_percentage : ℚ
  risk_per_share : ℚ
  kelly_size : ℚ
  fixed_fractional_size : ℚ
  volatility_adjusted_size : ℚ
  portfolio_heat_adjustment : ℚ
  max_risk_amount : ℚ
  error : Bool
deriving Repr, DecidableEq

/-- `calculate_position_size` (risk_management.py lines 25-86) over
numeric signal fields.  The try body runs in `Except`; any
ZeroDivisionError falls to the conservative default of the handler. -/
def calculate_position_size (portfolio_value max_portfolio_risk : ℚ)
    (sd : SignalData) (portfolio_data : Option ℚ) : PSResult :=
  let confidence_score := sd.confidence_score.getD 50
  let risk_level := sd.risk_level.getD "medium"
  let entry_price := sd.entry_price.getD 100
  let stop_loss := sd.stop_loss.getD (entry_price * (19 / 20))
  let risk_per_share := |entry_price - stop_loss|
  let attempt : Except String PSResult := do
    let kelly_size ← calculate_kelly_criterion portfolio_value confidence_score
      risk_per_share entry_price
    let ff := calculate_fixed_fractional portfolio_value risk_level
    let vol := calculate_volatility_adjusted_size portfolio_value
      (sd.atr.getD 0) entry_price
    let heat := calculate_portfolio_heat_adjustment portfolio_value portfolio_data
    let base_size := (kelly_size + ff + vol) / 3
    let adjusted_size := base_size * heat
    let max_position_value := portfolio_value * (1 / 10)
    let max_shares ← pyDiv max_position_value entry_price
    let risk_based_shares ← pyDiv (portfolio_value * max_portfolio_risk)
      risk_per_share
    let final_shares := min adjusted_size (min max_shares risk_based_shares)
    let position_value := final_shares * entry_price
    let pct ← pyDiv position_value portfolio_value
    pure
      { shares := max 1 (truncQ final_shares)
        position_value := pyRound position_value 2
        portfolio_percentage := pyRound (pct * 100) 2
        risk_per_share := pyRound risk_per_share 2
        kelly_size := pyRound kelly_size 2
        fixed_fractional_size := pyRound ff 2
        volatility_adjusted_size := pyRound vol 2
        portfolio_heat_adjustment := pyRound heat 3
        max_risk_amount := pyRound (final_shares * risk_per_share) 2
        error := false }
  match attempt with
  | Except.ok r => r
  | Except.error _ =>
    { shares := 1
      position_value := entry_price
      portfolio_percentage := 1
      risk_per_share := entry_price * (1 / 20)
      kelly_size := 0
      fixed_fractional_size := 0
      volatility_adjusted_size := 0
      portfolio_heat_adjustment := 0
      max_risk_amount := entry_price * (1 / 20)
      error := true }

end RiskEngine

namespace RiskEngine

lemma roundHalfEven_nonneg (x : ℚ) (hx : 0 ≤ x) : 0 ≤ roundHalfEven x := by
  have hf : (0 : ℤ) ≤ ⌊x⌋ := Int.floor_nonneg.mpr hx
  unfold roundHalfEven
  dsimp only
  split_ifs <;> omega

lemma pyRound_nonneg (x : ℚ) (n : ℕ) (hx : 0 ≤ x) : 0 ≤ pyRound x n := by
  unfold pyRound
  apply div_nonneg
  · exact_mod_cast roundHalfEven_nonneg _ (by positivity)
  · positivity

lemma truncQ_le_max (f : ℚ) : (truncQ f : ℚ) ≤ max 0 f := by
  unfold truncQ
  split_ifs with h
  · exact le_max_of_le_right (Int.floor_le f)
  · push_neg at h
    have h2 : (0 : ℚ) ≤ -f := le_of_lt (by linarith)
    have h3 : (0 : ℤ) ≤ ⌊-f⌋ := Int.floor_nonneg.mpr h2
    push_cast
    have h4 : (-(⌊-f⌋ : ℚ)) ≤ 0 := by exact_mod_cast neg_nonpos_of_nonneg (by exact_mod_cast h3)
    exact le_max_of_le_left h4

lemma kelly_criterion_ok (pv conf rps entry : ℚ) (hr : rps ≠ 0) (he : entry ≠ 0) :
    calculate_kelly_criterion pv conf rps entry =
      Except.ok (max 0 ((2 * (conf / 100) - (1 - conf / 100)) / 2 * (1 / 4) * pv
        / entry)) := by
  have hb : rps * 2 / rps = 2 := by field_simp
  simp [calculate_kelly_criterion, pyDiv, hr, he, hb, bind, Except.bind, pure,
    Except.pure]

end RiskEngine

namespace RiskEngine

/-- entry_price as looked up by `calculate_position_size` (default 100). -/
def psEntry (sd : SignalData) : ℚ := sd.entry_price.getD 100

/-- risk_per_share = abs(entry_price - stop_loss), stop_loss defaulting
to 95 percent of entry. -/
def psRps (sd : SignalData) : ℚ :=
  |psEntry sd - sd.stop_loss.getD (psEntry sd * (19 / 20))|

/-- The Kelly component on the non-raising path. -/
def psKelly (pv : ℚ) (sd : SignalData) : ℚ :=
  max 0 ((2 * (sd.confidence_score.getD 50 / 100)
    - (1 - sd.confidence_score.getD 50 / 100)) / 2 * (1 / 4) * pv / psEntry sd)

/-- The fixed-fractional component as called by the sizer. -/
def psFF (pv : ℚ) (sd : SignalData) : ℚ :=
  calculate_fixed_fractional pv (sd.risk_level.getD "medium")

/-- The volatility-adjusted component as called by the sizer. -/
def psVol (pv : ℚ) (sd : SignalData) : ℚ :=
  calculate_volatility_adjusted_size pv (sd.atr.getD 0) (psEntry sd)

/-- min(max_shares, risk_based_shares): the two caps of the claim. -/
def psCaps (pv mpr : ℚ) (sd : SignalData) : ℚ :=
  min (pv * (1 / 10) / psEntry sd) (pv * mpr / psRps sd)

/-- final_shares before the int() and the max(1, .) floor. -/
def psFinal (pv mpr : ℚ) (sd : SignalData) (pd : Option ℚ) : ℚ :=
  min ((psKelly pv sd + psFF pv sd + psVol pv sd) / 3
    * calculate_portfolio_heat_adjustment pv pd) (psCaps pv mpr sd)

lemma calculate_position_size_ok (pv mpr : ℚ) (sd : SignalData) (pd : Option ℚ)
    (he : psEntry sd ≠ 0) (hr : psRps sd ≠ 0) (hpv : pv ≠ 0) :
    calculate_position_size pv mpr sd pd =
      { shares := max 1 (truncQ (psFinal pv mpr sd pd))
        position_value := pyRound (psFinal pv mpr sd pd * psEntry sd) 2
        portfolio_percentage :=
          pyRound (psFinal pv mpr sd pd * psEntry sd / pv * 100) 2
        risk_per_share := pyRound (psRps sd) 2
        kelly_size := pyRound (psKelly pv sd) 2
        fixed_fractional_size := pyRound (psFF pv sd) 2
        volatility_adjusted_size := pyRound (psVol pv sd) 2
        portfolio_heat_adjustment :=
          pyRound (calculate_portfolio_heat_adjustment pv pd) 3
        max_risk_amount := pyRound (psFinal pv mpr sd pd * psRps sd) 2
        error := false } := by
  unfold psRps psEntry at hr
  unfold psEntry at he
  unfold calculate_position_size
  dsimp only
  rw [kelly_criterion_ok pv _ _ _ hr he]
  simp only [bind, Except.bind, pyDiv, if_neg he, if_neg hr, if_neg hpv, pure,
    Except.pure]
  unfold psFinal psCaps psKelly psFF psVol psEntry psRps
  rfl

end RiskEngine

namespace RiskEngine

/-- C3 (amended): on every input on which `calculate_position_size`
succeeds (entry price, risk per share and portfolio value nonzero, so no
exception is caught), the returned shares count is at least 1 and the
Kelly component is nonnegative; the shares count is bounded by
max(1, min(0.1*portfolio/entry, portfolio*max_risk/risk_per_share)) — the
two caps bound shares only when their minimum is at least 1, because the
1-share floor is applied after the caps and overrides them below 1. -/
theorem calculate_position_size_bounds (pv mpr : ℚ) (sd : SignalData)
    (pd : Option ℚ) (he : psEntry sd ≠ 0) (hr : psRps sd ≠ 0) (hpv : pv ≠ 0) :
    1 ≤ (calculate_position_size pv mpr sd pd).shares ∧
    0 ≤ (calculate_position_size pv mpr sd pd).kelly_size ∧
    ((calculate_position_size pv mpr sd pd).shares : ℚ) ≤
      max 1 (min (pv * (1 / 10) / psEntry sd) (pv * mpr / psRps sd)) ∧
    (calculate_position_size pv mpr sd pd).error = false := by
  rw [calculate_position_size_ok pv mpr sd pd he hr hpv]
  refine ⟨le_max_left _ _, pyRound_nonneg _ _ (le_max_left 0 _), ?_, rfl⟩
  have h1 : (truncQ (psFinal pv mpr sd pd) : ℚ) ≤ max 0 (psFinal pv mpr sd pd) :=
    truncQ_le_max _
  have h2 : ((max 1 (truncQ (psFinal pv mpr sd pd)) : ℤ) : ℚ) =
      max 1 ((truncQ (psFinal pv mpr sd pd) : ℤ) : ℚ) := by
    push_cast
    rfl
  rw [h2]
  have h3 : max (1 : ℚ) ((truncQ (psFinal pv mpr sd pd) : ℤ) : ℚ) ≤
      max 1 (max 0 (psFinal pv mpr sd pd)) := max_le_max le_rfl h1
  have h4 : max (1 : ℚ) (max 0 (psFinal pv mpr sd pd)) =
      max 1 (psFinal pv mpr sd pd) := by
    rw [← max_assoc]
    norm_num
  have h5 : psFinal pv mpr sd pd ≤ psCaps pv mpr sd := min_le_right _ _
  have h6 : max (1 : ℚ) (psFinal pv mpr sd pd) ≤ max 1 (psCaps pv mpr sd) :=
    max_le_max le_rfl h5
  calc max (1 : ℚ) ((truncQ (psFinal pv mpr sd pd) : ℤ) : ℚ)
      ≤ max 1 (max 0 (psFinal pv mpr sd pd)) := h3
    _ = max 1 (psFinal pv mpr sd pd) := h4
    _ ≤ max 1 (psCaps pv mpr sd) := h6
    _ = max 1 (min (pv * (1 / 10) / psEntry sd) (pv * mpr / psRps sd)) := rfl

/-- Witness for C3: the all-default signal (entry 100, stop 95) with the
default configuration succeeds and satisfies the bounds. -/
theorem calculate_position_size_bounds_wit :
    1 ≤ (calculate_position_size 100000 (1 / 50) {} none).shares ∧
    0 ≤ (calculate_position_size 100000 (1 / 50) {} none).kelly_size ∧
    ((calculate_position_size 100000 (1 / 50) {} none).shares : ℚ) ≤
      max 1 (min (100000 * (1 / 10) / psEntry {}) (100000 * (1 / 50) / psRps {})) ∧
    (calculate_position_size 100000 (1 / 50) {} none).error = false :=
  calculate_position_size_bounds 100000 (1 / 50) {} none
    (by norm_num [psEntry]) (by norm_num [psRps, psEntry]) (by norm_num)

/-- Counterexample to C3 as stated: with portfolio 100000, max risk 2
percent and a signal whose entry price is 20000 (stop defaulting to
19000), the call succeeds, max_shares = 0.5 and risk_based_shares = 2,
yet shares = 1 > min(0.5, 2): the 1-share floor exceeds the claimed cap. -/
theorem calculate_position_size_cap_cex :
    (calculate_position_size 100000 (1 / 50) { entry_price := some 20000 }
        none).error = false ∧
    (calculate_position_size 100000 (1 / 50) { entry_price := some 20000 }
        none).shares = 1 ∧
    ¬ (((calculate_position_size 100000 (1 / 50) { entry_price := some 20000 }
        none).shares : ℚ) ≤
      min (100000 * (1 / 10) / 20000)
        (100000 * (1 / 50) / |20000 - 20000 * ((19 : ℚ) / 20)|)) := by
  have he : psEntry { entry_price := some 20000 } ≠ 0 := by norm_num [psEntry]
  have hr : psRps { entry_price := some 20000 } ≠ 0 := by
    norm_num [psRps, psEntry]
  have hok := calculate_position_size_ok 100000 (1 / 50)
    { entry_price := some 20000 } none he hr (by norm_num)
  have hff : psFF 100000 { entry_price := some 20000 } = 20 := by
    simp [psFF, calculate_fixed_fractional]
    norm_num
  have hfinal : psFinal 100000 (1 / 50) { entry_price := some 20000 } none
      = 1 / 2 := by
    rw [psFinal, hff]
    norm_num [psCaps, psKelly, psVol, psEntry, psRps,
      calculate_volatility_adjusted_size,
      calculate_portfolio_heat_adjustment, abs_of_nonneg]
  have hsh : (calculate_position_size 100000 (1 / 50)
      { entry_price := some 20000 } none).shares = 1 := by
    rw [hok]
    show max 1 (truncQ (psFinal 100000 (1 / 50) { entry_price := some 20000 }
      none)) = 1
    rw [hfinal]
    norm_num [truncQ]
  refine ⟨by rw [hok], hsh, ?_⟩
  rw [hsh]
  norm_num [abs_of_nonneg]

end RiskEngine

namespace RiskEngine

/-- A Python value as passed in a signal dict: a number or a string. -/
inductive PyVal where
  | num (q : ℚ)
  | str (s : String)
deriving Repr, DecidableEq

/-- Python multiplication of a dict value by a float constant: a string
times a float raises TypeError (0.95 and 0.05 are non-integer floats, so
string repetition does not apply). -/
def pyMulFloat (v : PyVal) (c : ℚ) : Except String PyVal :=
  match v with
  | PyVal.num q => Except.ok (PyVal.num (q * c))
  | PyVal.str _ => Except.error "TypeError"

/-- Signal dict for the dynamically-typed model: entry_price and
stop_loss may hold a value of either type. -/
structure DynSignal where
  confidence_score : Option ℚ := none
  risk_level : Option String := none
  entry_price : Option PyVal := none
  stop_loss : Option PyVal := none
  atr : Option ℚ := none
deriving Repr, DecidableEq

/-- `calculate_position_size` with Python dynamic typing on entry_price
and stop_loss.  The stop_loss default `entry_price * 0.95` is evaluated
eagerly inside the try (line 33); with all-numeric values the body is the
typed embedding `calculate_position_size`, whose internal try/except
already reproduces the numeric exception paths; any arithmetic touching a
string value raises into the handler.  The handler (lines 77-86) itself
computes `entry_price * 0.05`, which re-raises when entry_price is a
string — that exception escapes to the caller. -/
def calculate_position_size_dyn (pv mpr : ℚ) (sd : DynSignal)
    (pd : Option ℚ) : Except String PSResult :=
  let entry_price := sd.entry_price.getD (PyVal.num 100)
  let body : Except String PSResult := do
    let sl_default ← pyMulFloat entry_price (19 / 20)
    let stop_loss := sd.stop_loss.getD sl_default
    match entry_price, stop_loss with
    | PyVal.num e, PyVal.num s =>
      pure (calculate_position_size pv mpr
        { confidence_score := sd.confidence_score
          risk_level := sd.risk_level
          entry_price := some e
          stop_loss := some s
          atr := sd.atr } pd)
    | _, _ => Except.error "TypeError"
  match body with
  | Except.ok r => Except.ok r
  | Except.error _ => do
    let rps ← pyMulFloat entry_price (1 / 20)
    let mra ← pyMulFloat entry_price (1 / 20)
    match entry_price, rps, mra with
    | PyVal.num e, PyVal.num r1, PyVal.num r2 =>
      Except.ok
        { shares := 1
          position_value := e
          portfolio_percentage := 1
          risk_per_share := r1
          kelly_size := 0
          fixed_fractional_size := 0
          volatility_adjusted_size := 0
          portfolio_heat_adjustment := 0
          max_risk_amount := r2
          error := true }
    | _, _, _ => Except.error "TypeError"

/-- C4 evaluated at the failing input: with entry_price the string "abc",
the try body raises at the stop_loss default computation, and the except
handler raises again at `entry_price * 0.05`, so the TypeError escapes
`calculate_position_size` — the operation is not total, contradicting the
totality contract. -/
theorem calculate_position_size_handler_raises :
    calculate_position_size_dyn 100000 (1 / 50)
      { entry_price := some (PyVal.str "abc") } none =
      Except.error "TypeError" := rfl

end RiskEngine

namespace RiskEngine

/-- Python `a <= b` where b may be None: None raises TypeError. -/
def pyLeOpt (a : ℚ) (b : Option ℚ) : Except String Bool :=
  match b with
  | some q => Except.ok (decide (a ≤ q))
  | none => Except.error "TypeError"

/-- Python `a >= b` where b may be None: None raises TypeError. -/
def pyGeOpt (a : ℚ) (b : Option ℚ) : Except String Bool :=
  match b with
  | some q => Except.ok (decide (q ≤ a))
  | none => Except.error "TypeError"

/-- Long-direction loop of `simulate_trade` when stop_loss / take_profit
come straight from the signal dict and may be None: the comparisons are
live Python expressions that raise on None. -/
def longWalkChecked (sl tp : Option ℚ) :
    List Bar → ℚ → ℚ → Except String (Option (ℚ × String) × ℚ)
  | [], _, mdd => Except.ok (none, mdd)
  | b :: rest, peak, mdd => do
    let c1 ← pyLeOpt b.low sl
    if c1 then pure (some (sl.getD 0, "stop_loss"), mdd)
    else do
      let c2 ← pyGeOpt b.high tp
      if c2 then pure (some (tp.getD 0, "take_profit"), mdd)
      else
        let peak2 := max peak b.high
        let dd := (peak2 - b.low) / peak2
        longWalkChecked sl tp rest peak2 (min mdd (-dd))

/-- Short-direction loop, same conventions. -/
def shortWalkChecked (sl tp : Option ℚ) :
    List Bar → ℚ → ℚ → Except String (Option (ℚ × String) × ℚ)
  | [], _, mdd => Except.ok (none, mdd)
  | b :: rest, peak, mdd => do
    let c1 ← pyGeOpt b.high sl
    if c1 then pure (some (sl.getD 0, "stop_loss"), mdd)
    else do
      let c2 ← pyLeOpt b.low tp
      if c2 then pure (some (tp.getD 0, "take_profit"), mdd)
      else
        let peak2 := min peak b.low
        let dd := (b.low - peak2) / peak2
        shortWalkChecked sl tp rest peak2 (min mdd (-dd))

/-- `simulate_trade` as called from `backtest_signals`, where stop_loss
and take_profit are unchecked optional fields of the signal record. -/
def simulate_trade_checked (bars : List Bar) (direction : String) (entry : ℚ)
    (sl tp : Option ℚ) : Except String TradeResult := do
  let w ← if direction = "long" then longWalkChecked sl tp bars entry 0
          else shortWalkChecked sl tp bars entry 0
  let ex := w.1.getD (entry, "time_horizon_end")
  let ret := if direction = "long" then (ex.1 - entry) / entry * 100
             else (entry - ex.1) / entry * 100
  pure
    { exit_price := ex.1
      exit_reason := ex.2
      return_pct := ret
      max_drawdown := w.2
      trade_length := bars.length }

/-- A signal record as consumed by `backtest_signals` (optional,
duck-typed fields). -/
structure SigRec where
  asset : Option String := none
  entry_date : Option String := none
  direction : Option String := none
  entry_price : Option ℚ := none
  stop_loss : Option ℚ := none
  take_profit : Option ℚ := none
  time_horizon : Option ℕ := none
deriving Repr, DecidableEq

/-- The aggregate report of `backtest_signals`. -/
structure BacktestReport where
  total_trades : ℕ
  wins : ℕ
  losses : ℕ
  win_rate : ℚ
  average_return_pct : ℚ
  max_drawdown_pct : ℚ
  trade_details : List TradeResult
deriving Repr, DecidableEq

/-- The per-signal loop of `backtest_signals` (backtester.py lines
51-107).  `priceWindow` abstracts the historical fetch plus the
entry-window slice (fetch errors yield none; slicing errors are caught in
the source and also skip).  Field guards model Python truthiness: a
missing or empty asset/entry_date/direction and a missing or zero
entry_price skip the signal.  The call to `simulate_trade` is NOT inside
any try/except in the source, so its exceptions propagate. -/
def btLoop (priceWindow : SigRec → Option (List Bar)) :
    List SigRec → List TradeResult → ℚ → ℕ → ℕ → ℚ →
    Except String BacktestReport
  | [], results, total_return, wins, losses, max_dd =>
    let total_trades := wins + losses
    Except.ok
      { total_trades := total_trades
        wins := wins
        losses := losses
        win_rate := if 0 < total_trades then
          ((wins : ℚ) / (total_trades : ℚ)) * 100 else 0
        average_return_pct := if 0 < total_trades then
          total_return / (total_trades : ℚ) else 0
        max_drawdown_pct := max_dd
        trade_details := results }
  | s :: rest, results, total_return, wins, losses, max_dd =>
    if s.asset.getD "" = "" ∨ s.entry_date.getD "" = "" ∨
        s.direction.getD "" = "" ∨ s.entry_price.getD 0 = 0 then
      btLoop priceWindow rest results total_return wins losses max_dd
    else
      match priceWindow s with
      | none => btLoop priceWindow rest results total_return wins losses max_dd
      | some bars =>
        if bars = [] then
          btLoop priceWindow rest results total_return wins losses max_dd
        else do
          let tr ← simulate_trade_checked bars (s.direction.getD "")
            (s.entry_price.getD 0) s.stop_loss s.take_profit
          btLoop priceWindow rest (results ++ [tr])
            (total_return + tr.return_pct)
            (if 0 < tr.return_pct then wins + 1 else wins)
            (if 0 < tr.return_pct then losses else losses + 1)
            (min max_dd tr.max_drawdown)

/-- `backtest_signals` over a batch of signal records. -/
def backtest_signals (priceWindow : SigRec → Option (List Bar))
    (signals : List SigRec) : Except String BacktestReport :=
  btLoop priceWindow signals [] 0 0 0 0

/-- C7 evaluated at the failing input: a single signal that passes all
the field guards but has no stop_loss reaches `simulate_trade`, where the
comparison `low <= None` raises a TypeError that aborts the whole batch —
the per-signal failure is not isolated, contradicting the error-handling
contract. -/
theorem backtest_signals_abort_on_missing_stop :
    backtest_signals (fun _ => some [⟨101, 99, 100⟩])
      [{ asset := some "X", entry_date := some "2024-01-01",
         direction := some "long", entry_price := some 100,
         take_profit := some 110 }] =
      Except.error "TypeError" := rfl

end RiskEngine

namespace RiskEngine

/-- Python abs() on a number. -/
def pyAbs (q : ℚ) : ℚ := if q < 0 then -q else q

/-- Tail of pandas `expanding().max()`: `acc` is the running peak. -/
def runMaxAux (acc : ℚ) : List ℚ → List ℚ
  | [] => []
  | x :: xs => max acc x :: runMaxAux (max acc x) xs

/-- pandas `Series.expanding().max()`: the running maximum series. -/
def runningMax : List ℚ → List ℚ
  | [] => []
  | x :: xs => x :: runMaxAux x xs

/-- The per-point drawdown series `(series - running_max)/running_max`
(risk_management.py line 424). -/
def drawdownList (values : List ℚ) : List ℚ :=
  (values.zip (runningMax values)).map fun p => (p.1 - p.2) / p.2

/-- pandas `Series.min()` on a nonempty series (0 on empty, unreachable
under the length guard). -/
def listMin : List ℚ → ℚ
  | [] => 0
  | x :: xs => xs.foldl min x

/-- The drawdown-episode loop of `check_drawdown` (risk_management.py
lines 433-447): `i` is the enumeration index, `inDD` the in_drawdown
flag, `start` the episode start, `acc` the collected episode lengths;
an unterminated trailing episode is closed at the end. -/
def ddEpAux : List ℚ → ℕ → Bool → ℕ → List ℕ → List ℕ
  | [], n, inDD, start, acc => if inDD then acc ++ [n - start] else acc
  | d :: rest, i, inDD, start, acc =>
    if d < 0 ∧ inDD = false then ddEpAux rest (i + 1) true i acc
    else if 0 ≤ d ∧ inDD = true then
      ddEpAux rest (i + 1) false start (acc ++ [i - start])
    else ddEpAux rest (i + 1) inDD start acc

/-- The drawdown-episode lengths of a drawdown series. -/
def ddEpisodes (dds : List ℚ) : List ℕ := ddEpAux dds 0 false 0 []

/-- `_assess_drawdown_risk` (risk_management.py lines 470-480), applied
to the unrounded fractions. -/
def assess_drawdown_risk (max_dd cur : ℚ) : String :=
  if max_dd < -(1 / 5) then "HIGH RISK - Significant drawdown detected"
  else if max_dd < -(1 / 10) then "MEDIUM RISK - Moderate drawdown"
  else if cur < -(1 / 20) then "CAUTION - Currently in drawdown"
  else "LOW RISK - Acceptable drawdown levels"

/-- Result dictionary of `check_drawdown`. -/
structure DrawdownResult where
  max_drawdown : ℚ
  current_drawdown : ℚ
  avg_drawdown_duration : ℚ
  max_drawdown_duration : ℕ
  recovery_factor : ℚ
  total_return : ℚ
  risk_assessment : String
deriving Repr, DecidableEq

/-- `check_drawdown` (risk_management.py lines 410-464): none models the
insufficient-data error dict for fewer than two points. -/
def check_drawdown (portfolio_values : List ℚ) : Option DrawdownResult :=
  if portfolio_values.length < 2 then none
  else
    let dds := drawdownList portfolio_values
    let max_dd := listMin dds
    let cur := dds.getLastD 0
    let periods := ddEpisodes dds
    let avg : ℚ := if periods = [] then 0
      else (periods.map fun n => (n : ℚ)).sum / (periods.length : ℚ)
    let maxdur : ℕ := if periods = [] then 0 else periods.foldl max 0
    let total_return := (portfolio_values.getLastD 0 - portfolio_values.headD 0)
      / portfolio_values.headD 0
    let recovery := if max_dd = 0 then 0 else pyAbs (total_return / max_dd)
    some
      { max_drawdown := pyRound (max_dd * 100) 2
        current_drawdown := pyRound (cur * 100) 2
        avg_drawdown_duration := pyRound avg 1
        max_drawdown_duration := maxdur
        recovery_factor := pyRound recovery 2
        total_return := pyRound (total_return * 100) 2
        risk_assessment := assess_drawdown_risk max_dd cur }

end RiskEngine

namespace RiskEngine

lemma runMaxAux_chain (acc : ℚ) (xs : List ℚ) (h : List.Chain (· < ·) acc xs) :
    runMaxAux acc xs = xs := by
  induction xs generalizing acc with
  | nil => rfl
  | cons x xs ih =>
    rcases List.chain_cons.mp h with ⟨h1, h2⟩
    have hm : max acc x = x := max_eq_right (le_of_lt h1)
    simp only [runMaxAux, hm]
    exact congrArg _ (ih x h2)

lemma runningMax_chain (l : List ℚ) (h : l.Chain' (· < ·)) : runningMax l = l := by
  cases l with
  | nil => rfl
  | cons x xs =>
    simp only [runningMax]
    exact congrArg _ (runMaxAux_chain x xs h)

lemma drawdownList_self (l : List ℚ) (h : runningMax l = l) :
    drawdownList l = List.replicate l.length 0 := by
  unfold drawdownList
  rw [h]
  clear h
  induction l with
  | nil => rfl
  | cons x xs ih =>
    simp only [List.zip_cons_cons, List.map_cons, List.length_cons,
      List.replicate_succ]
    rw [sub_self, zero_div]
    exact congrArg _ ih

lemma foldl_min_replicate_zero : ∀ n : ℕ, (List.replicate n (0 : ℚ)).foldl min 0 = 0
  | 0 => rfl
  | n + 1 => by
    simp only [List.replicate, List.foldl_cons, min_self]
    exact foldl_min_replicate_zero n

lemma listMin_replicate_zero (n : ℕ) (hn : 1 ≤ n) :
    listMin (List.replicate n (0 : ℚ)) = 0 := by
  cases n with
  | zero => omega
  | succ m =>
    simp only [List.replicate, listMin]
    exact foldl_min_replicate_zero m

lemma ddEpAux_replicate_zero :
    ∀ (n i start : ℕ) (acc : List ℕ),
      ddEpAux (List.replicate n (0 : ℚ)) i false start acc = acc
  | 0, _, _, _ => rfl
  | n + 1, i, start, acc => by
    have h1 : ¬ ((0 : ℚ) < 0 ∧ (false : Bool) = false) := by norm_num
    have h2 : ¬ ((0 : ℚ) ≤ 0 ∧ (false : Bool) = true) := by simp
    simp only [List.replicate, ddEpAux, if_neg h1, if_neg h2]
    exact ddEpAux_replicate_zero n (i + 1) start acc

/-- C9: `check_drawdown` measures drawdowns against the running peak: on
[100, 90, 80, 95] it reports max_drawdown = -20 percent (trough 80
against peak 100) and current_drawdown = -5 percent; and on every
strictly increasing sequence of length at least two it reports
max_drawdown = 0 with no drawdown episodes, so both the average and the
maximum episode duration are 0. -/
theorem check_drawdown_correct :
    ((check_drawdown [100, 90, 80, 95]).map DrawdownResult.max_drawdown =
        some (-20) ∧
      (check_drawdown [100, 90, 80, 95]).map DrawdownResult.current_drawdown =
        some (-5)) ∧
    (∀ l : List ℚ, l.Chain' (· < ·) → 2 ≤ l.length →
      (check_drawdown l).map DrawdownResult.max_drawdown = some 0 ∧
      ddEpisodes (drawdownList l) = [] ∧
      (check_drawdown l).map DrawdownResult.avg_drawdown_duration = some 0 ∧
      (check_drawdown l).map DrawdownResult.max_drawdown_duration = some 0) := by
  constructor
  · constructor <;>
      norm_num [check_drawdown, drawdownList, runningMax, runMaxAux, listMin,
        ddEpisodes, ddEpAux, pyRound, roundHalfEven, pyAbs, assess_drawdown_risk]
  · intro l hchain hlen
    have hdd : drawdownList l = List.replicate l.length 0 :=
      drawdownList_self l (runningMax_chain l hchain)
    have hmin : listMin (drawdownList l) = 0 := by
      rw [hdd]
      exact listMin_replicate_zero l.length (by omega)
    have hep : ddEpisodes (drawdownList l) = [] := by
      rw [hdd]
      exact ddEpAux_replicate_zero l.length 0 0 []
    have hguard : ¬ l.length < 2 := by omega
    refine ⟨?_, hep, ?_, ?_⟩ <;>
      simp only [check_drawdown, if_neg hguard, hmin, hep, Option.map_some,
        if_pos rfl, Option.some_inj] <;>
      norm_num [pyRound, roundHalfEven]

/-- Witness for C9 on the strictly increasing sequence [1, 2, 3]. -/
theorem check_drawdown_correct_wit :
    (check_drawdown [1, 2, 3]).map DrawdownResult.max_drawdown = some 0 ∧
    ddEpisodes (drawdownList [1, 2, 3]) = [] ∧
    (check_drawdown [1, 2, 3]).map DrawdownResult.avg_drawdown_duration =
      some 0 ∧
    (check_drawdown [1, 2, 3]).map DrawdownResult.max_drawdown_duration =
      some 0 :=
  check_drawdown_correct.2 [1, 2, 3]
    (by norm_num [List.chain'_cons]) (by norm_num)

end RiskEngine

namespace RiskEngine

/-- Python str.lower() (ASCII case folding, as in the source direction
strings). -/
def pyLower (s : String) : String := String.mk (s.data.map Char.toLower)

/-- Result dictionary of `dynamic_stop_loss`; `error = true` marks the
except-handler dict (whose Python version carries only stop_loss_price
and the error message; the remaining fields are zeroed here). -/
structure DSLResult where
  stop_loss_price : ℚ
  stop_distance : ℚ
  stop_percentage : ℚ
  atr_multiplier : ℚ
  is_trailing : Bool
  error : Bool
deriving Repr, DecidableEq

/-- The pre-rounding final stop of `dynamic_stop_loss`
(risk_management.py lines 374-390): for a long direction
min(max(basic, trailing), 0.95*entry); otherwise
max(min(basic, trailing), 1.05*entry).  The branch tests
`direction.lower() == "long"`. -/
def dynamic_stop_raw (entry_price current_price atr : ℚ) (direction : String)
    (trailing_factor : ℚ) : ℚ :=
  if pyLower direction = "long" then
    min (max (entry_price - atr * trailing_factor)
      (current_price - atr * trailing_factor)) (entry_price * (19 / 20))
  else
    max (min (entry_price + atr * trailing_factor)
      (current_price + atr * trailing_factor)) (entry_price * (21 / 20))

/-- `dynamic_stop_loss` (risk_management.py lines 367-408).  The only
raising operation is the stop_percentage division by current_price; a
zero current price reaches the except handler, which returns the
direction-dependent default stop. -/
def dynamic_stop_loss (entry_price current_price atr : ℚ) (direction : String)
    (trailing_factor : ℚ) : DSLResult :=
  let final_stop := dynamic_stop_raw entry_price current_price atr direction
    trailing_factor
  let basic_stop := if pyLower direction = "long" then
    entry_price - atr * trailing_factor else entry_price + atr * trailing_factor
  let trailing_stop := if pyLower direction = "long" then
    current_price - atr * trailing_factor
    else current_price + atr * trailing_factor
  if current_price = 0 then
    { stop_loss_price := if pyLower direction = "long" then
        entry_price * (19 / 20) else entry_price * (21 / 20)
      stop_distance := 0
      stop_percentage := 0
      atr_multiplier := 0
      is_trailing := false
      error := true }
  else
    let stop_distance := pyAbs (current_price - final_stop)
    let stop_percentage := stop_distance / current_price * 100
    { stop_loss_price := pyRound final_stop 2
      stop_distance := pyRound stop_distance 2
      stop_percentage := pyRound stop_percentage 2
      atr_multiplier := trailing_factor
      is_trailing := decide (trailing_stop ≠ basic_stop)
      error := false }

/-- C10 (amended): the dynamic stop never lands on the wrong side of the
entry price, with the direction compared case-insensitively as the code
does: whenever direction.lower() = "long" the pre-rounding stop is at
most 0.95 * entry_price, and for every direction whose lowercase form is
not "long" it is at least 1.05 * entry_price; on the non-raising path the
returned stop_loss_price is exactly the pre-rounding stop rounded to two
decimals. -/
theorem dynamic_stop_loss_side (entry_price current_price atr
    trailing_factor : ℚ) (direction : String) :
    (pyLower direction = "long" →
      dynamic_stop_raw entry_price current_price atr direction trailing_factor ≤
        entry_price * (19 / 20)) ∧
    (pyLower direction ≠ "long" →
      entry_price * (21 / 20) ≤
        dynamic_stop_raw entry_price current_price atr direction
          trailing_factor) ∧
    (current_price ≠ 0 →
      (dynamic_stop_loss entry_price current_price atr direction
          trailing_factor).stop_loss_price =
        pyRound (dynamic_stop_raw entry_price current_price atr direction
          trailing_factor) 2) := by
  refine ⟨?_, ?_, ?_⟩
  · intro hd
    rw [dynamic_stop_raw, if_pos hd]
    exact min_le_right _ _
  · intro hd
    rw [dynamic_stop_raw, if_neg hd]
    exact le_max_right _ _
  · intro hc
    simp only [dynamic_stop_loss, if_neg hc]

/-- Witness for C10: a long direction stays at or below 95 percent of
entry, a short direction at or above 105 percent, and a nonzero current
price returns the rounded raw stop. -/
theorem dynamic_stop_loss_side_wit :
    dynamic_stop_raw 100 90 1 "long" 2 ≤ 100 * (19 / 20) ∧
    100 * (21 / 20) ≤ dynamic_stop_raw 100 110 1 "short" 2 ∧
    (dynamic_stop_loss 100 90 1 "long" 2).stop_loss_price =
      pyRound (dynamic_stop_raw 100 90 1 "long" 2) 2 :=
  ⟨(dynamic_stop_loss_side 100 90 1 2 "long").1 (by decide),
   (dynamic_stop_loss_side 100 110 1 2 "short").2.1 (by decide),
   (dynamic_stop_loss_side 100 90 1 2 "long").2.2 (by norm_num)⟩

/-- Counterexample to C10 as stated: the direction string "LONG" is not
the string "long", so under the claim it should receive a stop of at
least 1.05 * entry; but the code lowercases the direction, takes the long
branch, and with entry = current = 100, atr = 1, factor = 2 produces the
raw stop min(max(98, 98), 95) = 95 < 105. -/
theorem dynamic_stop_loss_case_cex :
    "LONG" ≠ "long" ∧
    dynamic_stop_raw 100 100 1 "LONG" 2 = 95 ∧
    ¬ ((100 : ℚ) * (21 / 20) ≤ dynamic_stop_raw 100 100 1 "LONG" 2) := by
  have hcond : pyLower "LONG" = "long" := by decide
  have hval : dynamic_stop_raw 100 100 1 "LONG" 2 = 95 := by
    rw [dynamic_stop_raw, if_pos hcond]
    norm_num
  refine ⟨by decide, hval, ?_⟩
  rw [hval]
  norm_num

end RiskEngine

namespace RiskEngine

lemma longWalkChecked_some (sl tp : ℚ) :
    ∀ (bars : List Bar) (peak mdd : ℚ),
      longWalkChecked (some sl) (some tp) bars peak mdd =
        Except.ok (longWalk sl tp bars peak mdd)
  | [], _, _ => rfl
  | b :: rest, peak, mdd => by
    simp only [longWalkChecked, longWalk, pyLeOpt, pyGeOpt, bind, Except.bind]
    by_cases h1 : b.low ≤ sl
    · simp [h1, pure, Except.pure]
    · by_cases h2 : tp ≤ b.high
      · simp [h1, h2, pure, Except.pure]
      · simp [h1, h2]
        exact longWalkChecked_some sl tp rest _ _

lemma shortWalkChecked_some (sl tp : ℚ) :
    ∀ (bars : List Bar) (peak mdd : ℚ),
      shortWalkChecked (some sl) (some tp) bars peak mdd =
        Except.ok (shortWalk sl tp bars peak mdd)
  | [], _, _ => rfl
  | b :: rest, peak, mdd => by
    simp only [shortWalkChecked, shortWalk, pyLeOpt, pyGeOpt, bind, Except.bind]
    by_cases h1 : sl ≤ b.high
    · simp [h1, pure, Except.pure]
    · by_cases h2 : b.low ≤ tp
      · simp [h1, h2, pure, Except.pure]
      · simp [h1, h2]
        exact shortWalkChecked_some sl tp rest _ _

/-- With both exit levels present, the unchecked simulator used by the
batch agrees with the pure trade simulator: only a missing level can make
it raise. -/
lemma simulate_trade_checked_complete (bars : List Bar) (direction : String)
    (entry sl tp : ℚ) :
    simulate_trade_checked bars direction entry (some sl) (some tp) =
      Except.ok (simulate_trade bars direction entry sl tp) := by
  by_cases hd : direction = "long" <;>
    simp [simulate_trade_checked, simulate_trade, hd, longWalkChecked_some,
      shortWalkChecked_some, bind, Except.bind, pure, Except.pure]

end RiskEngine
